import Mathlib

/-!
Verification development for the promptmaster-lite version store
(`src-tauri/src`): a shallow embedding of the database-backed version
store (`versions.rs`, `prompts.rs`), its input validation (`security.rs`),
the file mirror rendering and the reconciler logic, together with theorems
about the spec's testable properties.

Modelling conventions:
* The SQLite database is a pair of row lists in insertion (rowid) order.
* `created_at` timestamps (RFC3339 strings in the code, compared as TEXT
  which for same-format RFC3339 values is chronological order) are
  modelled as `Nat` ticks; the `%Y-%m-%d` rendering of a row's creation
  instant is carried alongside as `created_date`, supplied by the caller
  the same way `Utc::now()` is read once per operation.
* JSON (de)serialization of the tag list (`serde_json::to_string` /
  `from_str`, always round-tripping for string lists) is modelled as the
  identity on `List String`.
* Rust `str::len` is UTF-8 byte length, modelled by `String.utf8ByteSize`.
* Character classes follow the ASCII fragment of the Rust/regex classes;
  the claims under study involve ASCII data only.
-/

set_option maxRecDepth 16384

namespace PromptMaster

instance {ε α : Type} [DecidableEq ε] [DecidableEq α] : DecidableEq (Except ε α) := fun x y =>
  match x, y with
  | .ok a, .ok b =>
    if h : a = b then .isTrue (by rw [h]) else .isFalse (fun hc => h (Except.ok.inj hc))
  | .error a, .error b =>
    if h : a = b then .isTrue (by rw [h]) else .isFalse (fun hc => h (Except.error.inj hc))
  | .ok _, .error _ => .isFalse (fun hc => Except.noConfusion hc)
  | .error _, .ok _ => .isFalse (fun hc => Except.noConfusion hc)

/-! ## Generic character-list scanners (the regex searches of the code) -/

/-- Longest prefix of `l` whose characters satisfy `p`, with the rest. -/
def spanP (p : Char → Bool) : List Char → List Char × List Char
  | [] => ([], [])
  | c :: cs =>
    if p c then ((c :: (spanP p cs).1), (spanP p cs).2)
    else ([], c :: cs)

/-- Does `needle` occur as a contiguous sublist of the argument? -/
def listHasSub (needle : List Char) : List Char → Bool
  | [] => needle.isEmpty
  | c :: rest => needle.isPrefixOf (c :: rest) || listHasSub needle rest

/-- First occurrence split: returns `(before, after)` with
`l = before ++ needle ++ after` for the leftmost occurrence of `needle`. -/
def findSubAt (needle : List Char) : List Char → Option (List Char × List Char)
  | [] => if needle.isEmpty then some ([], []) else none
  | c :: rest =>
    if needle.isPrefixOf (c :: rest) then some ([], (c :: rest).drop needle.length)
    else
      match findSubAt needle rest with
      | some (pre, post) => some (c :: pre, post)
      | none => none

/-- Rust `str::trim` (whitespace stripped from both ends). -/
def rustTrim (s : String) : String :=
  String.mk (((s.data.dropWhile Char.isWhitespace).reverse.dropWhile Char.isWhitespace).reverse)

/-- Rust `str::split(c)`: split on every occurrence of `c`, keeping empty
pieces. -/
def splitOnChar (c : Char) : List Char → List (List Char)
  | [] => [[]]
  | x :: xs =>
    let r := splitOnChar c xs
    if x == c then [] :: r
    else
      match r with
      | h :: t => (x :: h) :: t
      | [] => [[x]]

/-! ## `security.rs`: validation -/

/-- The HTML tag names of `HTML_TAG_REGEX` in `validate_prompt_content`. -/
def htmlTagKeywords : List (List Char) :=
  ["script".data, "style".data, "iframe".data, "object".data, "embed".data,
   "form".data, "input".data, "button".data, "link".data, "meta".data,
   "base".data, "head".data, "html".data, "body".data]

/-- Model of `HTML_TAG_REGEX` (`<(?:script|…|body)[^>]*>`): an occurrence of `<`
followed by one of the keywords with a `>` somewhere after it. -/
def hasHtmlTag : List Char → Bool
  | [] => false
  | c :: rest =>
    (c == '<' &&
      htmlTagKeywords.any (fun kw =>
        kw.isPrefixOf rest && (rest.drop kw.length).any (· == '>')))
    || hasHtmlTag rest

/-- Model of `SCRIPT_URL_REGEX` (`(?i)(javascript|vbscript):`). -/
def hasScriptUrl (l : List Char) : Bool :=
  let low := l.map Char.toLower
  listHasSub "javascript:".data low || listHasSub "vbscript:".data low

/-- Model of `DATA_URL_REGEX` (`data:`). -/
def hasDataUrl (l : List Char) : Bool :=
  listHasSub "data:".data l

/-- Word character of the regex `\w` (ASCII fragment). -/
def isWordChar (c : Char) : Bool :=
  c.isAlphanum || c == '_'

/-- Tail of `EVENT_HANDLER_REGEX` after the literal `on`: `\w+\s*=`. -/
def eventTail (l : List Char) : Bool :=
  let r := spanP isWordChar l
  !r.1.isEmpty &&
    (match r.2.dropWhile Char.isWhitespace with
     | '=' :: _ => true
     | _ => false)

/-- Model of `EVENT_HANDLER_REGEX` (`(?i)on\w+\s*=`). -/
def hasEventHandler : List Char → Bool
  | [] => false
  | c1 :: rest =>
    (match rest with
     | c2 :: rest2 => c1.toLower == 'o' && c2.toLower == 'n' && eventTail rest2
     | [] => false)
    || hasEventHandler rest

/-- Errors of the embedded operations.  Each constructor corresponds to one
error site of the source: `invalidInput` to `AppError::InvalidInput`,
`strErr` to a direct `Err(String)` return inside a `#[tauri::command]`,
`db` to a `rusqlite::Error` surfacing through the transaction, and
`ioWriteFailed` to a failed `std::fs::write`. -/
inductive DbErr where
  /-- Model of `InvalidColumnName("Prompt with UUID {} does not exist")` -/
  | promptNotFound (uuid : String)
  /-- Model of `InvalidColumnName("Content already exists in version {}")` -/
  | duplicateContent (semver : String)
  /-- the race-recovery `SELECT` of `save_new_version` orders by
  `reverse(semver)`; SQLite defines no `reverse` function and the
  application registers none, so preparing the statement fails with
  `no such function: reverse`. -/
  | noSuchFunctionReverse
  /-- violation of a `PRIMARY KEY` or the `UNIQUE` index
  `idx_versions_unique_semver (prompt_uuid, semver)` on insert. -/
  | uniqueConstraint
  /-- Model of `QueryReturnedNoRows` -/
  | queryReturnedNoRows
  /-- Model of `ToSqlConversionFailure` wrapping an `AppError` raised inside a
  transaction (semver parse failures). -/
  | wrapped (msg : String)
deriving DecidableEq, Repr

inductive AppErr where
  | invalidInput (msg : String)
  | strErr (msg : String)
  | db (e : DbErr)
  | ioWriteFailed
deriving DecidableEq, Repr

/-- Model of `validate_prompt_content` from `security.rs`. -/
def validate_prompt_content (content : String) : Except AppErr Unit :=
  if hasHtmlTag content.data then
    .error (.invalidInput "Prompt contains HTML tags. Only plain text, Markdown, and XML tags are allowed.")
  else if hasScriptUrl content.data then
    .error (.invalidInput "Prompt contains script URLs which are not allowed.")
  else if hasDataUrl content.data then
    .error (.invalidInput "Prompt contains data URLs which are not allowed.")
  else if hasEventHandler content.data then
    .error (.invalidInput "Prompt contains event handlers which are not allowed.")
  else .ok ()

/-- The per-tag loop of `validate_prompt_input`. -/
def validate_tags : List String → Except AppErr Unit
  | [] => .ok ()
  | t :: ts =>
    if (rustTrim t).isEmpty then .error (.invalidInput "Tag cannot be empty")
    else if t.utf8ByteSize > 50 then .error (.invalidInput "Tag too long (max 50 characters)")
    else if t.data.contains '<' || t.data.contains '>' then
      .error (.invalidInput "Tags cannot contain HTML")
    else validate_tags ts

/-- Model of `validate_prompt_input` from `security.rs`. -/
def validate_prompt_input (title content : String) (tags : List String) : Except AppErr Unit :=
  if (rustTrim title).isEmpty then .error (.invalidInput "Title cannot be empty")
  else if title.utf8ByteSize > 255 then .error (.invalidInput "Title too long (max 255 characters)")
  else if (rustTrim content).isEmpty then .error (.invalidInput "Content cannot be empty")
  else if content.utf8ByteSize > 100000 then .error (.invalidInput "Content too long (max 100,000 characters)")
  else if tags.length > 20 then .error (.invalidInput "Too many tags (max 20)")
  else match validate_tags tags with
  | .error e => .error e
  | .ok _ =>
    match validate_prompt_content content with
    | .error e => .error e
    | .ok _ =>
      if title.data.contains '<' || title.data.contains '>' then
        .error (.invalidInput "Title cannot contain HTML")
      else .ok ()

/-- Lower-case hex digit class `[0-9a-f]` of `UUID_REGEX`. -/
def isHexLower (c : Char) : Bool :=
  c.isDigit || ('a' ≤ c && c ≤ 'f')

/-- Model of `validate_uuid` from `security.rs`
(`^[0-9a-f]{8}-[0-9a-f]{4}-[0-9a-f]{4}-[0-9a-f]{4}-[0-9a-f]{12}$`). -/
def validate_uuid (uuid : String) : Except AppErr Unit :=
  match uuid.data.splitOn '-' with
  | [a, b, c, d, e] =>
    if a.length == 8 && b.length == 4 && c.length == 4 && d.length == 4 && e.length == 12
        && (a ++ b ++ c ++ d ++ e).all isHexLower then
      .ok ()
    else .error (.invalidInput "Invalid UUID format")
  | _ => .error (.invalidInput "Invalid UUID format")

/-! ## `versions.rs`: semver parsing and bumping -/

/-- Decimal value of a digit string, as Rust's `u32::from_str` computes it
before its overflow check. -/
def digitsToNat (l : List Char) : Nat :=
  l.foldl (fun n c => 10 * n + (c.toNat - 48)) 0

/-- The match of `SEMVER_REGEX` (`^(\d+)\.(\d+)\.(\d+)$`): the three capture
groups when the whole string is three dot-separated nonempty digit runs.
The pattern is deterministic (greedy `\d+` cannot cross a `.`), so maximal
munch is exact. -/
def matchSemver (l : List Char) : Option (List Char × List Char × List Char) :=
  match spanP Char.isDigit l with
  | (a, '.' :: r2) =>
    match spanP Char.isDigit r2 with
    | (b, '.' :: r4) =>
      match spanP Char.isDigit r4 with
      | (c, []) =>
        if a.isEmpty || b.isEmpty || c.isEmpty then none
        else some (a, b, c)
      | _ => none
    | _ => none
  | _ => none

/-- Model of `parse_semver` from `versions.rs`: the regex match followed by the three
`u32` parses (which fail above `u32::MAX = 2^32 - 1`). -/
def parse_semver (version : String) : Except AppErr (Nat × Nat × Nat) :=
  match matchSemver version.data with
  | none => .error (.invalidInput ("Invalid semantic version: " ++ version))
  | some (a, b, c) =>
    if digitsToNat a ≥ 2 ^ 32 then .error (.invalidInput "Invalid major version number")
    else if digitsToNat b ≥ 2 ^ 32 then .error (.invalidInput "Invalid minor version number")
    else if digitsToNat c ≥ 2 ^ 32 then .error (.invalidInput "Invalid patch version number")
    else .ok (digitsToNat a, digitsToNat b, digitsToNat c)

/-- Model of `bump_patch_version` from `versions.rs`: `format!("{}.{}.{}", major,
minor, patch + 1)` with the release-profile wrapping `u32` increment. -/
def bump_patch_version (version : String) : Except AppErr String :=
  match parse_semver version with
  | .error e => .error e
  | .ok (ma, mi, pa) =>
    .ok (toString ma ++ "." ++ toString mi ++ "." ++ toString ((pa + 1) % 2 ^ 32))

example : parse_semver "1.0.0" = .ok (1, 0, 0) := by decide
example : parse_semver "1.0" = .error (.invalidInput "Invalid semantic version: 1.0") := by decide
example : parse_semver "1..0" = .error (.invalidInput "Invalid semantic version: 1..0") := by decide
example : bump_patch_version "1.0.9" = .ok "1.0.10" := by decide
example : validate_uuid "01234567-89ab-7def-8abc-0123456789ab" = .ok () := by decide
example : validate_uuid "zz" = .error (.invalidInput "Invalid UUID format") := by decide
example : validate_prompt_content "Hello world" = .ok () := by decide
example : hasEventHandler "x onclick = y".data = true := by decide
example : hasHtmlTag "<script foo>".data = true := by decide
example : hasScriptUrl "JavaScript:x".data = true := by decide

/-! ## The database model

`database.rs` creates tables `prompts (uuid PRIMARY KEY, title, tags, …)`
and `versions (uuid PRIMARY KEY, prompt_uuid, semver, body, metadata,
created_at, parent_uuid)` with the unique index
`idx_versions_unique_semver (prompt_uuid, semver)`.  Foreign keys are
declared but SQLite enforcement is never switched on (`PRAGMA
foreign_keys` is not issued), so inserts are not FK-checked.  Row lists
are kept in insertion (rowid) order. -/

structure PromptRow where
  uuid : String
  title : String
  tags : List String
  created_at : Nat
  updated_at : Nat
deriving DecidableEq, Repr

structure VersionRow where
  uuid : String
  prompt_uuid : String
  semver : String
  body : String
  metadata : Option String
  created_at : Nat
  /-- the `%Y-%m-%d` rendering of `created_at` (derived data carried
  explicitly, see the module comment). -/
  created_date : String
  parent_uuid : Option String
deriving DecidableEq, Repr

structure DBState where
  prompts : List PromptRow
  versions : List VersionRow
deriving DecidableEq, Repr

/-- Model of `SELECT … FROM prompts WHERE uuid = ?` (uuid is the primary key). -/
def prompt_by_uuid (db : DBState) (u : String) : Option PromptRow :=
  (db.prompts.filter (fun p => p.uuid == u)).head?

/-- The rows of `versions` belonging to one prompt, in rowid order. -/
def versionsOf (db : DBState) (p : String) : List VersionRow :=
  db.versions.filter (fun v => v.prompt_uuid == p)

/-- Model of `detect_version_conflict` from `versions.rs`: `SELECT semver FROM
versions WHERE prompt_uuid = ? AND body = ? LIMIT 1`, the first stored row
with a byte-identical body. -/
def detect_version_conflict (db : DBState) (prompt_uuid new_body : String) : Option String :=
  ((versionsOf db prompt_uuid).filter (fun v => v.body == new_body)).head?.map (fun v => v.semver)

/-- SQLite TEXT comparison (byte-wise `memcmp`, which on UTF-8 agrees with
code-point lexicographic order). -/
def charListLt : List Char → List Char → Bool
  | [], [] => false
  | [], _ :: _ => true
  | _ :: _, [] => false
  | a :: as, b :: bs =>
    a.toNat < b.toNat || (a.toNat == b.toNat && charListLt as bs)

def strLtB (a b : String) : Bool := charListLt a.data b.data

/-- Does row `a` sort strictly before row `b` under
`ORDER BY created_at DESC, semver DESC`? -/
def laterRow (a b : VersionRow) : Bool :=
  decide (b.created_at < a.created_at)
    || (b.created_at == a.created_at && strLtB b.semver a.semver)

/-- Model of `SELECT semver, uuid FROM versions WHERE prompt_uuid = ? ORDER BY
created_at DESC, semver DESC LIMIT 1` — the latest version of a prompt. -/
def latest_version (db : DBState) (p : String) : Option VersionRow :=
  (versionsOf db p).foldl
    (fun acc v =>
      match acc with
      | none => some v
      | some w => if laterRow v w then some v else some w)
    none

/-- Model of `SELECT COUNT(*) FROM versions WHERE prompt_uuid = ? AND semver = ?`
compared against 0. -/
def semver_exists (db : DBState) (p s : String) : Bool :=
  (versionsOf db p).any (fun v => v.semver == s)

/-- Model of `INSERT INTO versions …`, subject to the `uuid` primary key and the
unique index on `(prompt_uuid, semver)`. -/
def insertVersion (db : DBState) (v : VersionRow) : Except AppErr DBState :=
  if db.versions.any (fun w => w.uuid == v.uuid) then .error (.db .uniqueConstraint)
  else if semver_exists db v.prompt_uuid v.semver then .error (.db .uniqueConstraint)
  else .ok { db with versions := db.versions ++ [v] }

/-- Model of `INSERT INTO prompts …`, subject to the `uuid` primary key. -/
def insertPrompt (db : DBState) (p : PromptRow) : Except AppErr DBState :=
  if db.prompts.any (fun q => q.uuid == p.uuid) then .error (.db .uniqueConstraint)
  else .ok { db with prompts := db.prompts ++ [p] }

/-- Model of `UPDATE prompts SET updated_at = ? WHERE uuid = ?`. -/
def touchPrompt (db : DBState) (u : String) (now : Nat) : DBState :=
  { db with prompts := db.prompts.map (fun p =>
      if p.uuid == u then { p with updated_at := now } else p) }

/-! ## `prompts.rs`: `save_prompt` -/

/-- The transactional body plus the post-commit file write of
`save_prompt`.  `file_write_ok` models the outcome of `save_prompt_file`
(filesystem environment).  The result pairs the database state visible
after the call with the command's result; note the source propagates a
file-write failure with `?` *after* the transaction has committed, so the
rows stay in place while the command returns the error. -/
def save_prompt (db : DBState) (title content : String) (tags : List String)
    (prompt_uuid version_uuid : String) (now : Nat) (nowDate : String)
    (file_write_ok : Bool) : DBState × Except AppErr PromptRow :=
  match validate_prompt_input title content tags with
  | .error e => (db, .error e)
  | .ok _ =>
    let prow : PromptRow := ⟨prompt_uuid, title, tags, now, now⟩
    match insertPrompt db prow with
    | .error e => (db, .error e)
    | .ok db1 =>
      match insertVersion db1 ⟨version_uuid, prompt_uuid, "1.0.0", content, none, now, nowDate, none⟩ with
      | .error e => (db, .error e)
      | .ok db2 =>
        -- transaction committed here; the file write happens after it
        if file_write_ok then (db2, .ok prow)
        else (db2, .error .ioWriteFailed)

/-! ## `versions.rs`: `save_new_version`, `get_version_by_uuid`,
`rollback_to_version` -/

/-- The shared tail of `save_new_version` / `rollback_to_version`: insert
the new row, bump the prompt's `updated_at`, return the row. -/
def finishInsert (db : DBState) (prompt_uuid body version_uuid : String)
    (now : Nat) (nowDate : String) (semver : String) (parent : Option String) :
    Except AppErr (DBState × VersionRow) :=
  let row : VersionRow := ⟨version_uuid, prompt_uuid, semver, body, none, now, nowDate, parent⟩
  match insertVersion db row with
  | .error e => .error e
  | .ok db1 => .ok (touchPrompt db1 prompt_uuid now, row)

/-- The `save_new_version` command: validation, then the transaction
(prompt lookup, conflict detection, semver allocation, insert).  The
race-recovery branch (candidate semver already taken) prepares a `SELECT`
ordered by `reverse(semver)` expressions; SQLite has no `reverse` function
and none is registered, so that prepare fails and the transaction aborts
with a database error instead of recomputing. -/
def save_new_version (db : DBState) (prompt_uuid body : String)
    (version_uuid : String) (now : Nat) (nowDate : String) :
    Except AppErr (DBState × VersionRow) :=
  match validate_uuid prompt_uuid with
  | .error e => .error e
  | .ok _ =>
  match validate_prompt_content body with
  | .error e => .error e
  | .ok _ =>
  if (rustTrim body).isEmpty then .error (.strErr "Version body cannot be empty")
  else if body.utf8ByteSize > 100000 then
    .error (.strErr "Version body too long (max 100,000 characters)")
  else
  match prompt_by_uuid db prompt_uuid with
  | none => .error (.db (.promptNotFound prompt_uuid))
  | some _ =>
  match detect_version_conflict db prompt_uuid body with
  | some existing => .error (.db (.duplicateContent existing))
  | none =>
  match latest_version db prompt_uuid with
  | some latest =>
    match bump_patch_version latest.semver with
    | .error _ => .error (.db (.wrapped "candidate semver"))  -- ToSqlConversionFailure
    | .ok candidate =>
      if semver_exists db prompt_uuid candidate then
        .error (.db .noSuchFunctionReverse)
      else
        finishInsert db prompt_uuid body version_uuid now nowDate candidate (some latest.uuid)
  | none =>
    finishInsert db prompt_uuid body version_uuid now nowDate "1.0.0" none

/-- A failed transaction is rolled back: the runner pairs the state the
caller observes afterwards with the command result. -/
def save_new_version_run (db : DBState) (prompt_uuid body : String)
    (version_uuid : String) (now : Nat) (nowDate : String) :
    DBState × Except AppErr VersionRow :=
  match save_new_version db prompt_uuid body version_uuid now nowDate with
  | .ok (db1, v) => (db1, .ok v)
  | .error e => (db, .error e)

/-- Model of `get_version_by_uuid` from `versions.rs`. -/
def get_version_by_uuid (db : DBState) (version_uuid : String) :
    Except AppErr (Option VersionRow) :=
  if (rustTrim version_uuid).isEmpty then .error (.strErr "Version UUID cannot be empty")
  else .ok ((db.versions.filter (fun v => v.uuid == version_uuid)).head?)

/-- Model of `rollback_to_version` from `versions.rs`: read the target's body, then
re-save it under the next allocated semver (no conflict detection and no
race-recovery branch), parented to the current latest version. -/
def rollback_to_version (db : DBState) (version_uuid : String)
    (new_version_uuid : String) (now : Nat) (nowDate : String) :
    DBState × Except AppErr VersionRow :=
  if (rustTrim version_uuid).isEmpty then (db, .error (.strErr "Version UUID cannot be empty"))
  else
  match (db.versions.filter (fun v => v.uuid == version_uuid)).head? with
  | none => (db, .error (.strErr "Version not found"))
  | some target =>
    let tx : Except AppErr (DBState × VersionRow) :=
      match prompt_by_uuid db target.prompt_uuid with
      | none => .error (.db (.promptNotFound target.prompt_uuid))
      | some _ =>
        match latest_version db target.prompt_uuid with
        | some latest =>
          match bump_patch_version latest.semver with
          | .error _ => .error (.db (.wrapped "candidate semver"))
          | .ok candidate =>
            finishInsert db target.prompt_uuid target.body new_version_uuid now nowDate
              candidate (some latest.uuid)
        | none =>
          finishInsert db target.prompt_uuid target.body new_version_uuid now nowDate
            "1.0.0" none
    match tx with
    | .ok (db1, v) => (db1, .ok v)
    | .error e => (db, .error e)

/-! ## FileMirror: slug, rendering, idempotent write -/

/-- The title-sanitizing slug shared by `sync_version_to_file`,
`save_prompt_file` and `recreate_prompt_file`: keep alphanumerics, space,
hyphen, underscore; lower-case; spaces to hyphens. -/
def slugify (title : String) : String :=
  String.mk ((title.data.filterMap (fun c =>
    if c.isAlphanum || c == ' ' || c == '-' || c == '_' then some c.toLower else none)).map
      (fun c => if c == ' ' then '-' else c))

/-- Rust's `{:?}` rendering of a `Vec<String>` (tags contain no characters
needing Debug escapes once validated). -/
def debugFormatTags (tags : List String) : String :=
  "[" ++ String.intercalate ", " (tags.map (fun t => "\"" ++ t ++ "\"")) ++ "]"

/-- Model of `create_markdown_content` from `versions.rs` (also the inline format of
`save_prompt_file`, with `created` and `modified` both the write date). -/
def create_markdown_content (uuid title body semver : String) (tags : List String)
    (today : String) : String :=
  "---\nuuid: \"" ++ uuid ++ "\"\nversion: \"" ++ semver ++ "\"\ntitle: \"" ++ title
    ++ "\"\ntags: " ++ debugFormatTags tags ++ "\ncreated: " ++ today
    ++ "\nmodified: " ++ today ++ "\n---\n\n" ++ body

/-- The document rebuilt by `recreate_prompt_file`: same shape, but
`created` is the stored version's creation date and `modified` is the
recreation date. -/
def recreate_markdown_content (uuid version title : String) (tags : List String)
    (createdDate today body : String) : String :=
  "---\nuuid: \"" ++ uuid ++ "\"\nversion: \"" ++ version ++ "\"\ntitle: \"" ++ title
    ++ "\"\ntags: " ++ debugFormatTags tags ++ "\ncreated: " ++ createdDate
    ++ "\nmodified: " ++ today ++ "\n---\n\n" ++ body

/-- The mirror directory as a path-to-contents map. -/
abbrev FileSystem := List (String × String)

def fsLookup (fs : FileSystem) (p : String) : Option String :=
  (fs.filter (fun e => e.1 == p)).head?.map (fun e => e.2)

def fsWrite (fs : FileSystem) (p c : String) : FileSystem :=
  (p, c) :: fs.filter (fun e => !(e.1 == p))

/-- The mirror filename `{date}--{slug(title)}--v{semver}.md` inside the
`PromptMaster` directory. -/
def mirrorPath (date title semver : String) : String :=
  "PromptMaster/" ++ date ++ "--" ++ slugify title ++ "--v" ++ semver ++ ".md"

/-- Model of `sync_version_to_file` from `versions.rs`: render the document and skip
the write when the existing file already holds exactly that content.
Returns the filesystem afterwards and whether a write was performed. -/
def sync_version_to_file (fs : FileSystem) (prompt_uuid title body semver : String)
    (tags : List String) (today : String) : FileSystem × Bool :=
  let path := mirrorPath today title semver
  let content := create_markdown_content prompt_uuid title body semver tags today
  match fsLookup fs path with
  | some existing =>
    if existing == content then (fs, false) else (fsWrite fs path content, true)
  | none => (fsWrite fs path content, true)

/-! ## Reconciler import: `update_prompt_from_file` -/

structure ParsedDoc where
  uuid : String
  title : String
  tags : List String
  version : String
  body : String
deriving DecidableEq, Repr

/-- Model of `FRONTMATTER_REGEX` (`^---\n([\s\S]*?)\n---\n([\s\S]*)`): the content
must begin with `---\n`; the lazy group ends at the first `\n---\n`; the
remainder is the raw body. -/
def extractFrontmatter (content : String) : Option (String × String) :=
  match content.data with
  | '-' :: '-' :: '-' :: '\n' :: rest =>
    match findSubAt "\n---\n".data rest with
    | some (fm, body) => some (String.mk fm, String.mk body)
    | none => none
  | _ => none

/-- One attempt of `KEY: "([^"]+)"` at the head of `l`: the literal
pattern, then a nonempty run of non-quote characters, then `"`. -/
def tryQuotedAt (pat l : List Char) : Option (List Char) :=
  if pat.isPrefixOf l then
    let r := spanP (fun c => !(c == '"')) (l.drop pat.length)
    if r.1.isEmpty then none
    else
      match r.2 with
      | '"' :: _ => some r.1
      | _ => none
  else none

/-- The regex search for `KEY: "([^"]+)"`: try every start position left to
right (an attempt that fails advances by one character, as the engine
does). -/
def scanQuoted (pat : List Char) : List Char → Option (List Char)
  | [] => none
  | c :: rest =>
    match tryQuotedAt pat (c :: rest) with
    | some cap => some cap
    | none => scanQuoted pat rest

/-- The regex search for `tags: \[([^\]]*)\]` (capture may be empty). -/
def scanTags : List Char → Option (List Char)
  | [] => none
  | c :: rest =>
    (if "tags: [".data.isPrefixOf (c :: rest) then
      let r := spanP (fun ch => !(ch == ']')) ((c :: rest).drop "tags: [".length)
      match r.2 with
      | ']' :: _ => some r.1
      | _ => scanTags rest
    else scanTags rest)

/-- Rust `str::trim_matches('"')`: strip leading and trailing quote runs. -/
def trimQuotes (s : String) : String :=
  String.mk (((s.data.dropWhile (fun c => c == '"')).reverse.dropWhile
    (fun c => c == '"')).reverse)

/-- The tag-list parsing of `update_prompt_from_file`: empty capture gives
no tags, otherwise split on commas, trim and unquote, drop empties. -/
def parseTagList (tagsStr : String) : List String :=
  if (rustTrim tagsStr).isEmpty then []
  else (splitOnChar ',' tagsStr.data).filterMap (fun piece =>
    let t := trimQuotes (rustTrim (String.mk piece))
    if t.isEmpty then none else some t)

/-- The parsing phase of `update_prompt_from_file`: front matter split,
field extraction (uuid and title mandatory, tags defaulting to none,
version defaulting to `"1.0.0"`), body trimmed. -/
def parse_mirror_document (content : String) : Except AppErr ParsedDoc :=
  match extractFrontmatter content with
  | none => .error (.invalidInput "No frontmatter found")
  | some (fm, rawBody) =>
    match scanQuoted "uuid: \"".data fm.data with
    | none => .error (.invalidInput "UUID not found in frontmatter")
    | some u =>
      match scanQuoted "title: \"".data fm.data with
      | none => .error (.invalidInput "Title not found in frontmatter")
      | some t =>
        let tagsStr := ((scanTags fm.data).map String.mk).getD ""
        let tags := parseTagList tagsStr
        let version := ((scanQuoted "version: \"".data fm.data).map String.mk).getD "1.0.0"
        .ok ⟨String.mk u, String.mk t, tags, version, rustTrim rawBody⟩

/-- Model of `UPDATE prompts SET title = ?, tags = ?, updated_at = ? WHERE uuid = ?`
(a no-op when no row has that uuid, as in SQL). -/
def updatePromptRow (db : DBState) (u title : String) (tags : List String)
    (now : Nat) : DBState :=
  { db with prompts := db.prompts.map (fun p =>
      if p.uuid == u then { p with title := title, tags := tags, updated_at := now } else p) }

/-- The transaction of `update_prompt_from_file` run on a parsed document:
validate, upsert the prompt row, and insert the version only when the
declared `(prompt, semver)` pair is not already present. -/
def importParsed (db : DBState) (d : ParsedDoc) (version_uuid : String)
    (now : Nat) (nowDate : String) : Except AppErr DBState :=
  match validate_prompt_input d.title d.body d.tags with
  | .error e => .error e
  | .ok _ =>
    let db1 := updatePromptRow db d.uuid d.title d.tags now
    if semver_exists db1 d.uuid d.version then .ok db1
    else
      match insertVersion db1 ⟨version_uuid, d.uuid, d.version, d.body, none, now, nowDate, none⟩ with
      | .error e => .error e
      | .ok db2 => .ok db2

/-- Model of `update_prompt_from_file` on an already-read `.md` file's contents. -/
def update_prompt_from_file (db : DBState) (content : String)
    (version_uuid : String) (now : Nat) (nowDate : String) : Except AppErr DBState :=
  match parse_mirror_document content with
  | .error e => .error e
  | .ok d => importParsed db d version_uuid now nowDate

/-! ## Reconciler delete recovery: `recreate_prompt_file` -/

/-- The semver-and-extension tail `\d+\.\d+\.\d+\.md` that must follow
`--v` in `FILENAME_REGEX`; returns the semver characters.  (The regex has
no trailing anchor; mirror filenames end exactly in `.md`, which is what
is modelled.) -/
def semverMdTail (l : List Char) : Option (List Char) :=
  let ra := spanP Char.isDigit l
  match ra.2 with
  | '.' :: r2 =>
    let rb := spanP Char.isDigit r2
    match rb.2 with
    | '.' :: r4 =>
      let rc := spanP Char.isDigit r4
      match rc.2 with
      | ['.', 'm', 'd'] =>
        if ra.1.isEmpty || rb.1.isEmpty || rc.1.isEmpty then none
        else some (ra.1 ++ '.' :: rb.1 ++ '.' :: rc.1)
      | _ => none
    | _ => none
  | _ => none

/-- The greedy `(.+)--v` split: the *last* occurrence of `--v` whose tail
parses as `semver.md` wins (the engine's backtracking on the greedy
group). -/
def findLastSplitV : List Char → Option (List Char × List Char)
  | [] => none
  | c :: rest =>
    match findLastSplitV rest with
    | some (pre, sem) => some (c :: pre, sem)
    | none =>
      if "--v".data.isPrefixOf (c :: rest) then
        match semverMdTail ((c :: rest).drop 3) with
        | some sem => some ([], sem)
        | none => none
      else none

/-- Model of `FILENAME_REGEX` (`(\d{4}-\d{2}-\d{2})--(.+)--v(\d+\.\d+\.\d+)\.md`)
applied to a mirror filename (which starts with the date, so the search's
first match is anchored at the start): yields (date, title slug, semver). -/
def parse_filename (filename : String) : Option (String × String × String) :=
  match filename.data with
  | y1 :: y2 :: y3 :: y4 :: '-' :: m1 :: m2 :: '-' :: d1 :: d2 :: '-' :: '-' :: rest =>
    if [y1, y2, y3, y4, m1, m2, d1, d2].all Char.isDigit then
      match findLastSplitV rest with
      | some (slug, sem) =>
        if slug.isEmpty then none
        else some (String.mk [y1, y2, y3, y4, '-', m1, m2, '-', d1, d2],
                   String.mk slug, String.mk sem)
      | none => none
    else none
  | _ => none

/-- One row of `SELECT p.uuid, p.title, p.tags, v.body, v.created_at FROM
prompts p JOIN versions v ON p.uuid = v.prompt_uuid WHERE v.semver = ?`. -/
structure JoinRow where
  uuid : String
  title : String
  tags : List String
  body : String
  created_at : Nat
  created_date : String
deriving DecidableEq, Repr

def joinRows (db : DBState) (ver : String) : List JoinRow :=
  (db.versions.filter (fun v => v.semver == ver)).filterMap (fun v =>
    (prompt_by_uuid db v.prompt_uuid).map (fun p =>
      ⟨p.uuid, p.title, p.tags, v.body, v.created_at, v.created_date⟩))

/-- Model of `ORDER BY v.created_at DESC LIMIT 1` over the join. -/
def newestJoinRow (rows : List JoinRow) : Option JoinRow :=
  rows.foldl
    (fun acc r =>
      match acc with
      | none => some r
      | some w => if decide (w.created_at < r.created_at) then some r else some w)
    none

/-- The two-stage lookup of `recreate_prompt_file`: the newest version with
that semver if its prompt's title slugs to the filename's slug, otherwise
a linear scan of all versions with that semver for the first slug match. -/
def find_prompt_data (db : DBState) (title_slug ver : String) : Option JoinRow :=
  match newestJoinRow (joinRows db ver) with
  | none => none
  | some r =>
    if slugify r.title == title_slug then some r
    else (joinRows db ver).find? (fun q => slugify q.title == title_slug)

/-- Model of `recreate_prompt_file` from `prompts.rs` on the deleted file's name:
recover (date, slug, semver) from the filename, look the record up, and
rewrite the file at its recomputed path from database content.  A
`QueryReturnedNoRows` miss is reported as `Ok(false)`. -/
def recreate_prompt_file (db : DBState) (fs : FileSystem) (filename : String)
    (today : String) : Except AppErr (Bool × FileSystem) :=
  match parse_filename filename with
  | none => .ok (false, fs)
  | some (_date, title_slug, ver) =>
    match find_prompt_data db title_slug ver with
    | none => .ok (false, fs)
    | some r =>
      -- `DateTime::parse_from_rfc3339` of a stored `created_at` succeeds,
      -- so the filename date is the version's creation date.
      let date := r.created_date
      let path := "PromptMaster/" ++ date ++ "--" ++ slugify r.title ++ "--v" ++ ver ++ ".md"
      let content := recreate_markdown_content r.uuid ver r.title r.tags date today r.body
      .ok (true, fsWrite fs path content)

/-! ## Helper lemmas -/

theorem spanP_append_eq (p : Char → Bool) (l : List Char) :
    (spanP p l).1 ++ (spanP p l).2 = l := by
  induction l with
  | nil => rfl
  | cons c cs ih =>
    by_cases h : p c
    · simp [spanP, h, ih]
    · simp [spanP, h]

theorem spanP_mem (p : Char → Bool) (l : List Char) :
    ∀ x ∈ (spanP p l).1, p x = true := by
  induction l with
  | nil => intro x hx; simp [spanP] at hx
  | cons c cs ih =>
    intro x hx
    by_cases h : p c
    · simp only [spanP, h, if_true] at hx
      rcases List.mem_cons.mp hx with h1 | h1
      · rw [h1]; exact h
      · exact ih x h1
    · simp only [spanP, h, if_false] at hx
      simp at hx

theorem spanP_of_all (p : Char → Bool) (xs : List Char)
    (hxs : ∀ x ∈ xs, p x = true) : spanP p xs = (xs, []) := by
  induction xs with
  | nil => rfl
  | cons a as ih =>
    have ha : p a = true := hxs a (List.mem_cons_self a as)
    simp [spanP, ha, ih (fun x hx => hxs x (List.mem_cons_of_mem a hx))]

theorem spanP_of_all_append (p : Char → Bool) (xs : List Char) (y : Char) (ys : List Char)
    (hxs : ∀ x ∈ xs, p x = true) (hy : p y = false) :
    spanP p (xs ++ y :: ys) = (xs, y :: ys) := by
  induction xs with
  | nil => simp [spanP, hy]
  | cons a as ih =>
    have ha : p a = true := hxs a (List.mem_cons_self a as)
    simp [spanP, ha, ih (fun x hx => hxs x (List.mem_cons_of_mem a hx))]

theorem isEmpty_false_of_ne_nil {α} {l : List α} (h : l ≠ []) : l.isEmpty = false := by
  cases l with
  | nil => exact absurd rfl h
  | cons a as => rfl

theorem ne_nil_of_isEmpty_false {α} {l : List α} (h : l.isEmpty = false) : l ≠ [] := by
  cases l with
  | nil => simp at h
  | cons a as => simp

theorem any_eq_false_forall {α} (p : α → Bool) (l : List α) :
    l.any p = false ↔ ∀ x ∈ l, p x = false := by
  constructor
  · intro h x hx
    cases hpx : p x with
    | false => rfl
    | true =>
      have : l.any p = true := List.any_eq_true.mpr ⟨x, hx, hpx⟩
      rw [this] at h; cases h
  · intro h
    cases ha : l.any p with
    | false => rfl
    | true =>
      obtain ⟨x, hx, hpx⟩ := List.any_eq_true.mp ha
      rw [h x hx] at hpx; cases hpx

theorem head?_filter_mem {α} (p : α → Bool) (l : List α) (a : α)
    (h : (l.filter p).head? = some a) : a ∈ l ∧ p a = true := by
  have hmem : a ∈ l.filter p := by
    cases hf : l.filter p with
    | nil => rw [hf] at h; cases h
    | cons x xs =>
      rw [hf] at h
      injection h with h1
      rw [← h1]
      exact List.mem_cons_self _ _
  exact ⟨List.mem_of_mem_filter hmem, List.of_mem_filter hmem⟩

theorem fsLookup_fsWrite_self (fs : FileSystem) (p c : String) :
    fsLookup (fsWrite fs p c) p = some c := by
  simp [fsLookup, fsWrite, List.filter_cons]

/-! ## Semver specification predicates (the spec's reading of `parse`) -/

/-- A nonempty run of decimal digits. -/
def isDigitGroup (l : List Char) : Prop :=
  l ≠ [] ∧ ∀ c ∈ l, c.isDigit = true

instance (l : List Char) : Decidable (isDigitGroup l) := by
  unfold isDigitGroup
  infer_instance

/-- Spec predicate: the string consists of exactly three dot-separated non-negative integers. -/
def semverShape (s : String) : Prop :=
  ∃ a b c : List Char,
    s.data = a ++ '.' :: b ++ '.' :: c ∧ isDigitGroup a ∧ isDigitGroup b ∧ isDigitGroup c

theorem matchSemver_some_shape (l a b c : List Char)
    (h : matchSemver l = some (a, b, c)) :
    l = a ++ '.' :: b ++ '.' :: c ∧ isDigitGroup a ∧ isDigitGroup b ∧ isDigitGroup c := by
  unfold matchSemver at h
  split at h <;> try cases h
  rename_i a1 r2 heq1
  split at h <;> try cases h
  rename_i b1 r4 heq2
  split at h <;> try cases h
  rename_i c1 heq3
  split at h
  case isTrue => cases h
  case isFalse hg =>
    simp only [Option.some.injEq, Prod.mk.injEq] at h
    obtain ⟨rfl, rfl, rfl⟩ := h
    have hl : a1 ++ '.' :: r2 = l := by
      have := spanP_append_eq Char.isDigit l
      rw [heq1] at this
      simpa using this
    have hr2 : b1 ++ '.' :: r4 = r2 := by
      have := spanP_append_eq Char.isDigit r2
      rw [heq2] at this
      simpa using this
    have hr4 : c1 ++ ([] : List Char) = r4 := by
      have := spanP_append_eq Char.isDigit r4
      rw [heq3] at this
      simpa using this
    have hma : ∀ x ∈ a1, x.isDigit = true := by
      have := spanP_mem Char.isDigit l
      rw [heq1] at this
      simpa using this
    have hmb : ∀ x ∈ b1, x.isDigit = true := by
      have := spanP_mem Char.isDigit r2
      rw [heq2] at this
      simpa using this
    have hmc : ∀ x ∈ c1, x.isDigit = true := by
      have := spanP_mem Char.isDigit r4
      rw [heq3] at this
      simpa using this
    have hne : a1.isEmpty = false ∧ b1.isEmpty = false ∧ c1.isEmpty = false := by
      revert hg
      cases a1.isEmpty <;> cases b1.isEmpty <;> cases c1.isEmpty <;> simp
    refine ⟨?_, ⟨ne_nil_of_isEmpty_false hne.1, hma⟩,
      ⟨ne_nil_of_isEmpty_false hne.2.1, hmb⟩, ⟨ne_nil_of_isEmpty_false hne.2.2, hmc⟩⟩
    rw [← hl, ← hr2, ← hr4, List.append_nil]
    simp [List.cons_append]

theorem matchSemver_of_shape (a b c : List Char)
    (ha : isDigitGroup a) (hb : isDigitGroup b) (hc : isDigitGroup c) :
    matchSemver (a ++ '.' :: b ++ '.' :: c) = some (a, b, c) := by
  have hdot : ('.' : Char).isDigit = false := by decide
  have h1 : spanP Char.isDigit (a ++ '.' :: (b ++ '.' :: c)) = (a, '.' :: (b ++ '.' :: c)) :=
    spanP_of_all_append _ _ _ _ ha.2 hdot
  have h2 : spanP Char.isDigit (b ++ '.' :: c) = (b, '.' :: c) :=
    spanP_of_all_append _ _ _ _ hb.2 hdot
  have h3 : spanP Char.isDigit c = (c, []) := spanP_of_all _ _ hc.2
  have hassoc : a ++ '.' :: b ++ '.' :: c = a ++ '.' :: (b ++ '.' :: c) := by
    simp [List.cons_append]
  unfold matchSemver
  rw [hassoc, h1]
  simp only [h2, h3]
  simp [isEmpty_false_of_ne_nil ha.1, isEmpty_false_of_ne_nil hb.1,
    isEmpty_false_of_ne_nil hc.1]

/-- C7 (amended): `parse_semver` accepts exactly the strings made of
three dot-separated nonempty digit runs whose numeric values fit in a
`u32`, returning the three components; a component of `2^32` or more makes
the `u32` parse fail even though the regex matched (see
`parse_semver_overflow_cex`).  On every accepted string,
`bump_patch_version` returns `major.minor.((patch+1) mod 2^32)` — that is
`major.minor.(patch+1)` for every patch below the `u32` wrap point. -/
theorem parse_semver_bump_patch_spec (s : String) :
    (∀ a b c : List Char, s.data = a ++ '.' :: b ++ '.' :: c →
      isDigitGroup a → isDigitGroup b → isDigitGroup c →
      digitsToNat a < 2 ^ 32 → digitsToNat b < 2 ^ 32 → digitsToNat c < 2 ^ 32 →
      parse_semver s = .ok (digitsToNat a, digitsToNat b, digitsToNat c)) ∧
    (∀ ma mi pa, parse_semver s = .ok (ma, mi, pa) →
      semverShape s ∧ ma < 2 ^ 32 ∧ mi < 2 ^ 32 ∧ pa < 2 ^ 32) ∧
    (∀ ma mi pa, parse_semver s = .ok (ma, mi, pa) →
      bump_patch_version s
        = .ok (toString ma ++ "." ++ toString mi ++ "." ++ toString ((pa + 1) % 2 ^ 32))) := by
  refine ⟨?_, ?_, ?_⟩
  · intro a b c hdec ha hb hc hba hbb hbc
    have hm : matchSemver s.data = some (a, b, c) := by
      rw [hdec]; exact matchSemver_of_shape a b c ha hb hc
    unfold parse_semver
    simp only [hm]
    rw [if_neg (by omega), if_neg (by omega), if_neg (by omega)]
  · intro ma mi pa h
    unfold parse_semver at h
    cases hm : matchSemver s.data with
    | none => simp only [hm] at h; cases h
    | some t =>
      obtain ⟨a, b, c⟩ := t
      simp only [hm] at h
      split at h
      · cases h
      · split at h
        · cases h
        · split at h
          · cases h
          · rename_i hga hgb hgc
            simp only [Except.ok.injEq, Prod.mk.injEq] at h
            obtain ⟨rfl, rfl, rfl⟩ := h
            obtain ⟨hl, ha, hb, hc⟩ := matchSemver_some_shape s.data a b c hm
            exact ⟨⟨a, b, c, hl, ha, hb, hc⟩, by omega, by omega, by omega⟩
  · intro ma mi pa h
    unfold bump_patch_version
    rw [h]

/-- C7 counterexample: `"4294967296.0.0"` consists of exactly three
dot-separated non-negative integers, yet `parse_semver` fails on it (the
major component exceeds `u32::MAX`), so the claim as stated is false. -/
theorem parse_semver_overflow_cex :
    semverShape "4294967296.0.0" ∧
    parse_semver "4294967296.0.0"
      = .error (.invalidInput "Invalid major version number") := by
  constructor
  · exact ⟨"4294967296".data, "0".data, "0".data, by decide, by decide, by decide, by decide⟩
  · decide

/-- Witness for `parse_semver_bump_patch_spec` at `"1.2.3"`. -/
theorem parse_semver_bump_patch_spec_witness :
    parse_semver "1.2.3" = .ok (1, 2, 3) ∧ bump_patch_version "1.2.3" = .ok "1.2.4" := by
  constructor
  · have h := (parse_semver_bump_patch_spec "1.2.3").1 "1".data "2".data "3".data
      (by decide) (by decide) (by decide) (by decide) (by decide) (by decide) (by decide)
    exact h.trans (by decide)
  · have h := (parse_semver_bump_patch_spec "1.2.3").2.2 1 2 3 (by decide)
    exact h.trans (by decide)

/-! ## Concrete fixtures (reachable states used by witnesses and
counterexamples) -/

def exPU : String := "01234567-89ab-7def-8abc-0123456789ab"

def basePrompt : PromptRow := ⟨exPU, "Example", [], 1, 1⟩

/-- One prompt with its initial version `1.0.0`, body `"Hello"`. -/
def tdb : DBState :=
  ⟨[basePrompt],
   [⟨"v1", exPU, "1.0.0", "Hello", none, 1, "2025-01-01", none⟩]⟩

example : (save_new_version_run tdb exPU "Hello world" "v2" 2 "2025-01-01").2
    = .ok ⟨"v2", exPU, "1.0.1", "Hello world", none, 2, "2025-01-01", some "v1"⟩ := by decide

example : parse_filename "2025-01-01--example--v1.0.0.md"
    = some ("2025-01-01", "example", "1.0.0") := by decide

/-- The state after the spec's own §8 scenario: `1.0.0` = "Hello",
`1.0.1` = "Hello world", then rollback to `1.0.0` creating `1.0.2` =
"Hello" — two versions now share the body "Hello". -/
def dupDb : DBState :=
  ⟨[basePrompt],
   [⟨"v1", exPU, "1.0.0", "Hello", none, 1, "2025-01-01", none⟩,
    ⟨"v2", exPU, "1.0.1", "Hello world", none, 2, "2025-01-01", some "v1"⟩,
    ⟨"v3", exPU, "1.0.2", "Hello", none, 3, "2025-01-01", some "v2"⟩]⟩

/-- Duplicate-body row of `dupDb` created by the rollback. -/
def dupV3 : VersionRow := ⟨"v3", exPU, "1.0.2", "Hello", none, 3, "2025-01-01", some "v2"⟩

/-- A state in which the newest version (by creation time) is `1.0.1`
while `1.0.2` also exists — produced by two file imports with declared
semvers, the second one stale.  The next explicit save's patch-bump
candidate `1.0.2` then collides. -/
def raceDb : DBState :=
  ⟨[basePrompt],
   [⟨"w1", exPU, "1.0.2", "Hello", none, 3, "2025-01-01", none⟩,
    ⟨"w2", exPU, "1.0.1", "Hello world", none, 5, "2025-01-01", none⟩]⟩

/-! ## C1 — duplicate-content rejection -/

/-- C1 (amended): an explicit save whose body byte-identically matches
some stored version of the prompt fails with `DuplicateContent` naming the
semver of the *first stored* version with that body — which is V's semver
whenever V is the only such version — and the database state is unchanged
(no Version row inserted).  Since rollback deliberately recreates old
bodies, two versions can share a body, and the named semver then need not
be V's: see `save_new_version_duplicate_cex`. -/
theorem save_new_version_duplicate (db : DBState) (p b u : String) (now : Nat) (d : String)
    (hu : validate_uuid p = .ok ())
    (hc : validate_prompt_content b = .ok ())
    (hne : (rustTrim b).isEmpty = false)
    (hlen : ¬ b.utf8ByteSize > 100000)
    (pr : PromptRow) (hp : prompt_by_uuid db p = some pr)
    (V : VersionRow) (hV : V ∈ db.versions) (hVp : V.prompt_uuid = p) (hVb : V.body = b) :
    ∃ W : VersionRow, W ∈ db.versions ∧ W.prompt_uuid = p ∧ W.body = b ∧
      save_new_version_run db p b u now d
        = (db, .error (.db (.duplicateContent W.semver))) := by
  have hVf : V ∈ (versionsOf db p).filter (fun v => v.body == b) := by
    refine List.mem_filter.mpr ⟨List.mem_filter.mpr ⟨hV, ?_⟩, ?_⟩
    · simp [hVp]
    · simp [hVb]
  obtain ⟨W, rest, hfl⟩ :
      ∃ W rest, (versionsOf db p).filter (fun v => v.body == b) = W :: rest := by
    cases hf : (versionsOf db p).filter (fun v => v.body == b) with
    | nil => rw [hf] at hVf; cases hVf
    | cons w ws => exact ⟨w, ws, rfl⟩
  have hWmem : W ∈ (versionsOf db p).filter (fun v => v.body == b) := by
    rw [hfl]; exact List.mem_cons_self _ _
  have hWv : W ∈ versionsOf db p := List.mem_of_mem_filter hWmem
  have hWdb : W ∈ db.versions := List.mem_of_mem_filter hWv
  have hWp : W.prompt_uuid = p := by
    have := List.of_mem_filter hWv
    simpa using this
  have hWb : W.body = b := by
    have := List.of_mem_filter hWmem
    simpa using this
  have hdet : detect_version_conflict db p b = some W.semver := by
    unfold detect_version_conflict
    rw [hfl]
    rfl
  refine ⟨W, hWdb, hWp, hWb, ?_⟩
  have e1 : save_new_version db p b u now d
      = .error (.db (.duplicateContent W.semver)) := by
    unfold save_new_version
    simp [hu, hc, hne, hlen, hp, hdet]
  unfold save_new_version_run
  rw [e1]

/-- C1 counterexample: in the state reached by the spec's §8 scenario,
version `v3` (`1.0.2`) has body `"Hello"`, but a save of `"Hello"` is
rejected with `DuplicateContent "1.0.0"`, not `"1.0.2"` — the error does
not name V's semver for V = `v3`. -/
theorem save_new_version_duplicate_cex :
    dupV3 ∈ dupDb.versions ∧ dupV3.prompt_uuid = exPU ∧ dupV3.body = "Hello" ∧
    dupV3.semver = "1.0.2" ∧
    save_new_version_run dupDb exPU "Hello" "v4" 10 "2025-01-02"
      = (dupDb, .error (.db (.duplicateContent "1.0.0"))) := by
  refine ⟨by decide, by decide, by decide, by decide, by decide⟩

/-- Witness for `save_new_version_duplicate` on `tdb` (single match, so the
named semver is V's own). -/
theorem save_new_version_duplicate_witness :
    ∃ W : VersionRow, W ∈ tdb.versions ∧ W.prompt_uuid = exPU ∧ W.body = "Hello" ∧
      save_new_version_run tdb exPU "Hello" "v9" 10 "2025-01-02"
        = (tdb, .error (.db (.duplicateContent W.semver))) :=
  save_new_version_duplicate tdb exPU "Hello" "v9" 10 "2025-01-02"
    (by decide) (by decide) (by decide) (by decide)
    basePrompt (by decide)
    ⟨"v1", exPU, "1.0.0", "Hello", none, 1, "2025-01-01", none⟩
    (by decide) (by decide) (by decide)

/-! ## C2 — the allocation-race recovery branch -/

/-- C2 (code bug): with `raceDb` — newest version `1.0.1`, but `1.0.2`
also present — a fresh-body save computes candidate `1.0.2`, finds it
taken, and then fails with the `no such function: reverse` database error:
the recomputation `SELECT` is unpreparable, so no second attempt happens
and no numeric-maximum recomputation takes place, contradicting the
claimed retry-once behavior (which the code's own log message and comments
announce). -/
theorem save_new_version_reverse_bug :
    save_new_version_run raceDb exPU "Hello three" "v9" 10 "2025-01-02"
      = (raceDb, .error (.db .noSuchFunctionReverse)) := by decide

/-! ## C3 — the import's duplicate gate is on semver, not body -/

theorem semver_exists_updatePromptRow (db : DBState) (u t : String) (tg : List String)
    (n : Nat) (p s : String) :
    semver_exists (updatePromptRow db u t tg n) p s = semver_exists db p s := rfl

theorem updatePromptRow_versions (db : DBState) (u t : String) (tg : List String) (n : Nat) :
    (updatePromptRow db u t tg n).versions = db.versions := rfl

/-- The document used by the C3 counterexample: declared version `1.0.2`
with a body identical to the stored `1.0.0` body. -/
def importDoc : String :=
  "---\nuuid: \"" ++ exPU ++ "\"\nversion: \"1.0.2\"\ntitle: \"Example\"\ntags: []\ncreated: 2025-01-01\nmodified: 2025-01-01\n---\n\nHello"

/-- C3 (amended): for a successfully parsed and validated document,
the import inserts a new Version row carrying the declared semver exactly
when no existing version of that prompt already has that *semver*; body
identity plays no role in the gate — a byte-identical body under a fresh
semver is inserted (see `import_identical_body_cex`). -/
theorem update_from_file_semver_gate (db : DBState) (content : String) (d : ParsedDoc)
    (vu : String) (now : Nat) (dt : String)
    (hparse : parse_mirror_document content = .ok d)
    (hval : validate_prompt_input d.title d.body d.tags = .ok ()) :
    (semver_exists db d.uuid d.version = true →
      update_prompt_from_file db content vu now dt
        = .ok (updatePromptRow db d.uuid d.title d.tags now)) ∧
    (semver_exists db d.uuid d.version = false →
      db.versions.any (fun w => w.uuid == vu) = false →
      update_prompt_from_file db content vu now dt
        = .ok { updatePromptRow db d.uuid d.title d.tags now with
            versions := db.versions
              ++ [⟨vu, d.uuid, d.version, d.body, none, now, dt, none⟩] }) := by
  constructor
  · intro hse
    unfold update_prompt_from_file importParsed
    simp [hparse, hval, semver_exists_updatePromptRow, hse]
  · intro hse hfresh
    have hnex : ¬ ∃ x ∈ db.versions, x.uuid = vu := by
      rintro ⟨x, hx, hxe⟩
      have hb := (any_eq_false_forall _ _).mp hfresh x hx
      simp [hxe] at hb
    unfold update_prompt_from_file importParsed insertVersion
    simp [hparse, hval, semver_exists_updatePromptRow, updatePromptRow_versions, hse, hnex]

/-- C3 counterexample: `tdb` stores version `1.0.0` with body
`"Hello"`; importing a document that declares version `1.0.2` with the
byte-identical body `"Hello"` still inserts a new Version row — the
claimed "no insert when an existing version has identical body" is false. -/
theorem import_identical_body_cex :
    (tdb.versions.any (fun v => v.prompt_uuid == exPU && v.body == "Hello")) = true ∧
    update_prompt_from_file tdb importDoc "vnew" 10 "2025-01-02"
      = .ok ⟨[⟨exPU, "Example", [], 1, 10⟩],
          [⟨"v1", exPU, "1.0.0", "Hello", none, 1, "2025-01-01", none⟩,
           ⟨"vnew", exPU, "1.0.2", "Hello", none, 10, "2025-01-02", none⟩]⟩ :=
  ⟨by decide, by decide⟩

/-- Witness for `update_from_file_semver_gate` (fresh-semver branch). -/
theorem update_from_file_semver_gate_witness :
    update_prompt_from_file tdb importDoc "vnew" 10 "2025-01-02"
      = .ok { updatePromptRow tdb exPU "Example" [] 10 with
          versions := tdb.versions
            ++ [⟨"vnew", exPU, "1.0.2", "Hello", none, 10, "2025-01-02", none⟩] } :=
  (update_from_file_semver_gate tdb importDoc ⟨exPU, "Example", [], "1.0.2", "Hello"⟩
    "vnew" 10 "2025-01-02" (by decide) (by decide)).2 (by decide) (by decide)

/-! ## C4 — file-write failure after the commit -/

/-- C4 (amended): when the mirror write fails after `save_prompt`'s
transaction has committed, the inserted Prompt and Version rows stay in
the database — but the command *propagates the file error* (the source
uses `?` on `save_prompt_file`), so the caller sees an error, not the
success the claim asserts (see `save_prompt_file_failure_cex`). -/
theorem save_prompt_file_failure_commits (db : DBState) (title content : String)
    (tags : List String) (pu vu : String) (now : Nat) (dt : String)
    (hval : validate_prompt_input title content tags = .ok ())
    (hpF : db.prompts.any (fun q => q.uuid == pu) = false)
    (hvF : db.versions.any (fun w => w.uuid == vu) = false)
    (hsF : semver_exists db pu "1.0.0" = false) :
    save_prompt db title content tags pu vu now dt false
      = ({ prompts := db.prompts ++ [⟨pu, title, tags, now, now⟩],
           versions := db.versions ++ [⟨vu, pu, "1.0.0", content, none, now, dt, none⟩] },
         .error .ioWriteFailed) := by
  have hs' : semver_exists { db with prompts := db.prompts ++ [⟨pu, title, tags, now, now⟩] }
      pu "1.0.0" = false := hsF
  unfold save_prompt insertPrompt insertVersion
  simp [hval, hpF, hvF, hs']

/-- C4 counterexample: from the empty database, a `save_prompt` whose
mirror write fails returns an *error* even though both rows committed —
the claim's "reports success to the caller" is false on the code. -/
theorem save_prompt_file_failure_cex :
    save_prompt ⟨[], []⟩ "Example" "Hello" [] exPU "v1" 5 "2025-01-01" false
      = (⟨[⟨exPU, "Example", [], 5, 5⟩],
          [⟨"v1", exPU, "1.0.0", "Hello", none, 5, "2025-01-01", none⟩]⟩,
         .error .ioWriteFailed) := by decide

def exPU2 : String := "11234567-89ab-7def-8abc-0123456789ab"

/-- Witness for `save_prompt_file_failure_commits` on `tdb`. -/
theorem save_prompt_file_failure_commits_witness :
    save_prompt tdb "Other" "World" [] exPU2 "v9" 5 "2025-01-02" false
      = ({ prompts := tdb.prompts ++ [⟨exPU2, "Other", [], 5, 5⟩],
           versions := tdb.versions
             ++ [⟨"v9", exPU2, "1.0.0", "World", none, 5, "2025-01-02", none⟩] },
         .error .ioWriteFailed) :=
  save_prompt_file_failure_commits tdb "Other" "World" [] exPU2 "v9" 5 "2025-01-02"
    (by decide) (by decide) (by decide) (by decide)

/-! ## C6 — createPrompt then getByUuid -/

/-- C6 (confirmed): for valid input, fresh identifiers and a
successful mirror write, `save_prompt` succeeds and the single Version row
it creates — the one `get_version_by_uuid` returns — carries the given
body byte-for-byte, semver `1.0.0`, and no parent. -/
theorem save_prompt_then_get (db : DBState) (title content : String) (tags : List String)
    (pu vu : String) (now : Nat) (dt : String)
    (hval : validate_prompt_input title content tags = .ok ())
    (hpF : db.prompts.any (fun q => q.uuid == pu) = false)
    (hvF : db.versions.any (fun w => w.uuid == vu) = false)
    (hsF : semver_exists db pu "1.0.0" = false)
    (hvne : (rustTrim vu).isEmpty = false) :
    ∃ db1, save_prompt db title content tags pu vu now dt true
        = (db1, .ok ⟨pu, title, tags, now, now⟩) ∧
      get_version_by_uuid db1 vu
        = .ok (some ⟨vu, pu, "1.0.0", content, none, now, dt, none⟩) := by
  have hs' : semver_exists { db with prompts := db.prompts ++ [⟨pu, title, tags, now, now⟩] }
      pu "1.0.0" = false := hsF
  refine ⟨⟨db.prompts ++ [⟨pu, title, tags, now, now⟩],
    db.versions ++ [⟨vu, pu, "1.0.0", content, none, now, dt, none⟩]⟩, ?_, ?_⟩
  · unfold save_prompt insertPrompt insertVersion
    simp [hval, hpF, hvF, hs']
  · have hnil : db.versions.filter (fun v => v.uuid == vu) = [] :=
      List.filter_eq_nil_iff.mpr
        (fun a ha => by simp [(any_eq_false_forall _ _).mp hvF a ha])
    unfold get_version_by_uuid
    simp [hvne, List.filter_append, hnil]

/-- Witness for `save_prompt_then_get` on the empty database. -/
theorem save_prompt_then_get_witness :
    ∃ db1, save_prompt ⟨[], []⟩ "Example" "Hello" [] exPU "v1" 5 "2025-01-01" true
        = (db1, .ok ⟨exPU, "Example", [], 5, 5⟩) ∧
      get_version_by_uuid db1 "v1"
        = .ok (some ⟨"v1", exPU, "1.0.0", "Hello", none, 5, "2025-01-01", none⟩) :=
  save_prompt_then_get ⟨[], []⟩ "Example" "Hello" [] exPU "v1" 5 "2025-01-01"
    (by decide) (by decide) (by decide) (by decide) (by decide)

/-! ## Claim theorems -/

/-! ### C5 — rollback re-saves under the next allocated semver -/

/-- C5 (confirmed): rolling back to an existing version V creates a
new version whose body equals V's body, whose semver is the patch bump of
the prompt's latest version, and whose parent is that latest version; the
new semver differs from V's own.  No duplicate-content check is involved:
the definition never consults `detect_version_conflict`, and the witness
re-saves a body that already exists.  (The freshness hypothesis on the
bumped candidate is the §3 invariant that the newest version carries the
maximal semver; file imports can break it, in which case the unique index
aborts the insert.) -/
theorem rollback_creates_new_version (db : DBState) (vu nu : String) (now : Nat) (dt : String)
    (hne : (rustTrim vu).isEmpty = false)
    (V : VersionRow) (hget : (db.versions.filter (fun v => v.uuid == vu)).head? = some V)
    (pr : PromptRow) (hpr : prompt_by_uuid db V.prompt_uuid = some pr)
    (L : VersionRow) (hlat : latest_version db V.prompt_uuid = some L)
    (cand : String) (hbump : bump_patch_version L.semver = .ok cand)
    (hfreshU : db.versions.any (fun w => w.uuid == nu) = false)
    (hfreshS : semver_exists db V.prompt_uuid cand = false) :
    rollback_to_version db vu nu now dt
      = (touchPrompt
          { db with versions := db.versions
              ++ [⟨nu, V.prompt_uuid, cand, V.body, none, now, dt, some L.uuid⟩] }
          V.prompt_uuid now,
         .ok ⟨nu, V.prompt_uuid, cand, V.body, none, now, dt, some L.uuid⟩) ∧
    cand ≠ V.semver := by
  constructor
  · have hnexU : ¬ ∃ x ∈ db.versions, x.uuid = nu := by
      rintro ⟨x, hx, hxe⟩
      have hb := (any_eq_false_forall _ _).mp hfreshU x hx
      simp [hxe] at hb
    unfold rollback_to_version finishInsert insertVersion
    simp [hne, hget, hpr, hlat, hbump, hnexU, hfreshS]
  · intro hEq
    have hVdb : V ∈ db.versions := (head?_filter_mem _ _ _ hget).1
    have hVmem : V ∈ versionsOf db V.prompt_uuid :=
      List.mem_filter.mpr ⟨hVdb, by simp⟩
    have hS : (versionsOf db V.prompt_uuid).any (fun v => v.semver == cand) = false := hfreshS
    have hb := (any_eq_false_forall _ _).mp hS V hVmem
    rw [hEq] at hb
    simp at hb

/-- Witness for `rollback_creates_new_version`: rolling back `tdb`'s only
version (body "Hello", already present — no conflict check) yields
`1.0.1` with body "Hello", parented to `v1`. -/
theorem rollback_creates_new_version_witness :
    rollback_to_version tdb "v1" "v2" 5 "2025-01-02"
      = (touchPrompt
          { tdb with versions := tdb.versions
              ++ [⟨"v2", exPU, "1.0.1", "Hello", none, 5, "2025-01-02", some "v1"⟩] }
          exPU 5,
         .ok ⟨"v2", exPU, "1.0.1", "Hello", none, 5, "2025-01-02", some "v1"⟩) ∧
    "1.0.1" ≠ "1.0.0" :=
  rollback_creates_new_version tdb "v1" "v2" 5 "2025-01-02" (by decide)
    ⟨"v1", exPU, "1.0.0", "Hello", none, 1, "2025-01-01", none⟩ (by decide)
    ⟨exPU, "Example", [], 1, 1⟩ (by decide)
    ⟨"v1", exPU, "1.0.0", "Hello", none, 1, "2025-01-01", none⟩ (by decide)
    "1.0.1" (by decide) (by decide) (by decide)

/-! ### C8 — idempotent mirror writes -/

/-- C8 (confirmed): re-running `sync_version_to_file` with the same
version data on the same day performs no write: whatever the first call
left on disk at the computed path (either the pre-existing identical
content or the content it just wrote), the second call finds content equal
to the rendering and returns without writing. -/
theorem sync_version_to_file_idempotent (fs : FileSystem) (pu title body semver : String)
    (tags : List String) (today : String) :
    sync_version_to_file (sync_version_to_file fs pu title body semver tags today).1
      pu title body semver tags today
      = ((sync_version_to_file fs pu title body semver tags today).1, false) := by
  unfold sync_version_to_file
  cases hfs : fsLookup fs (mirrorPath today title semver) with
  | some existing =>
    by_cases he : existing == create_markdown_content pu title body semver tags today
    · simp [hfs, he]
    · simp [hfs, he, fsLookup_fsWrite_self]
  | none => simp [hfs, fsLookup_fsWrite_self]

/-! ### C9 — regenerating a deleted mirror file -/

theorem recreate_eq_create (u v t : String) (tg : List String) (d b : String) :
    recreate_markdown_content u v t tg d d b = create_markdown_content u t b v tg d := rfl

/-- C9 (amended): when the filename parses, the lookup finds the
record, and the recreation happens on the version's creation date, the
Reconciler rewrites a file at the same `PromptMaster` path whose content
is byte-identical to what FileMirror wrote for that version.  On any other
day the regenerated `modified:` front-matter line carries the recreation
date instead of the original write date, so the content differs (see
`recreate_modified_date_cex`). -/
theorem recreate_same_day (db : DBState) (fs : FileSystem) (fname : String)
    (fd slug ver : String) (r : JoinRow)
    (hpf : parse_filename fname = some (fd, slug, ver))
    (hfind : find_prompt_data db slug ver = some r)
    (hslug : slugify r.title = slug)
    (hdate : r.created_date = fd)
    (hfname : fname = fd ++ "--" ++ slug ++ "--v" ++ ver ++ ".md") :
    recreate_prompt_file db fs fname r.created_date
      = .ok (true, fsWrite fs ("PromptMaster/" ++ fname)
          (create_markdown_content r.uuid r.title r.body ver r.tags r.created_date)) := by
  unfold recreate_prompt_file
  simp only [hpf, hfind]
  rw [hslug, hdate, hfname, recreate_eq_create]
  simp [String.append_assoc]

/-- C9 counterexample: the mirror file for `tdb`'s version `1.0.0`
(written 2025-01-01) is deleted and recreated on 2025-01-02: the file
reappears at the same path, but its content differs from the one
FileMirror originally wrote — the `modified:` line now reads 2025-01-02. -/
theorem recreate_modified_date_cex :
    sync_version_to_file [] exPU "Example" "Hello" "1.0.0" [] "2025-01-01"
      = ([("PromptMaster/2025-01-01--example--v1.0.0.md",
           create_markdown_content exPU "Example" "Hello" "1.0.0" [] "2025-01-01")], true) ∧
    recreate_prompt_file tdb [] "2025-01-01--example--v1.0.0.md" "2025-01-02"
      = .ok (true, [("PromptMaster/2025-01-01--example--v1.0.0.md",
           recreate_markdown_content exPU "1.0.0" "Example" [] "2025-01-01" "2025-01-02" "Hello")]) ∧
    recreate_markdown_content exPU "1.0.0" "Example" [] "2025-01-01" "2025-01-02" "Hello"
      ≠ create_markdown_content exPU "Example" "Hello" "1.0.0" [] "2025-01-01" :=
  ⟨by decide, by decide, by decide⟩

/-- Witness for `recreate_same_day`. -/
theorem recreate_same_day_witness :
    recreate_prompt_file tdb [] "2025-01-01--example--v1.0.0.md" "2025-01-01"
      = .ok (true, fsWrite [] ("PromptMaster/" ++ "2025-01-01--example--v1.0.0.md")
          (create_markdown_content exPU "Example" "Hello" "1.0.0" [] "2025-01-01")) :=
  recreate_same_day tdb [] "2025-01-01--example--v1.0.0.md" "2025-01-01" "example" "1.0.0"
    ⟨exPU, "Example", [], "Hello", 1, "2025-01-01"⟩
    (by decide) (by decide) (by decide) (by decide) (by decide)

/-! ### C10 — missing `version` field defaults to 1.0.0 -/

/-- C10 (confirmed): a document with front-matter delimiters and
`uuid` and `title` fields but no `version` field parses successfully with
version `"1.0.0"`, and the import proceeds on exactly that parsed
document. -/
theorem parse_missing_version_defaults (content fm rawBody : String) (u t : List Char)
    (hfm : extractFrontmatter content = some (fm, rawBody))
    (hu : scanQuoted "uuid: \"".data fm.data = some u)
    (ht : scanQuoted "title: \"".data fm.data = some t)
    (hv : scanQuoted "version: \"".data fm.data = none) :
    ∃ d, parse_mirror_document content = .ok d ∧ d.version = "1.0.0" ∧
      ∀ db vu now dt, update_prompt_from_file db content vu now dt
        = importParsed db d vu now dt := by
  refine ⟨⟨String.mk u, String.mk t,
    parseTagList (((scanTags fm.data).map String.mk).getD ""), "1.0.0", rustTrim rawBody⟩,
    ?_, rfl, ?_⟩
  · unfold parse_mirror_document
    simp [hfm, hu, ht, hv]
  · intro db vu now dt
    unfold update_prompt_from_file parse_mirror_document
    simp [hfm, hu, ht, hv]

/-- A well-formed mirror document with no `version` field. -/
def noVersionDoc : String :=
  "---\nuuid: \"" ++ exPU ++ "\"\ntitle: \"Example\"\ntags: []\ncreated: 2025-01-01\nmodified: 2025-01-01\n---\n\nHello"

/-- Witness for `parse_missing_version_defaults` on `noVersionDoc`. -/
theorem parse_missing_version_defaults_witness :
    ∃ d, parse_mirror_document noVersionDoc = .ok d ∧ d.version = "1.0.0" ∧
      ∀ db vu now dt, update_prompt_from_file db noVersionDoc vu now dt
        = importParsed db d vu now dt :=
  parse_missing_version_defaults noVersionDoc
    ("uuid: \"" ++ exPU ++ "\"\ntitle: \"Example\"\ntags: []\ncreated: 2025-01-01\nmodified: 2025-01-01")
    "\nHello" exPU.data "Example".data
    (by decide) (by decide) (by decide) (by decide)


end PromptMaster
